import Mathlib

/-!
Verification development for the journal_app_integrated webhook relay
(`src/app.js`): a WhatsApp webhook server that tracks a per-user pending
state, dispatches inbound messages to a title-generation backend or a
journal-search backend, and relays results back as (possibly chunked)
outbound messages.

The shallow embedding below translates the JavaScript source into pure
Lean functions.  External HTTP calls (the Gemini title backend, the
Elsevier search backend, and per-call WhatsApp delivery success) are
modelled as oracles supplied to the handler; thrown JS exceptions are
modelled with `Except`/explicit success flags; the module-level mutable
`processedMessages` set and `userState` object are modelled as an explicit
`ServerState` threaded through the handler.
-/

namespace JournalApp

/-! ## Outbound effects

Each successfully delivered outbound WhatsApp API call is recorded as one
`Effect`: a single text chunk (`sendWhatsAppMessage` issues one POST per
chunk) or one interactive button message (`sendWhatsAppMessageWithButtons`,
a single POST). -/

/-- One successfully delivered outbound WhatsApp API call. -/
inductive Effect where
  | textChunk (recipient : String) (chunk : List Char)
  | choices (recipient : String) (msg : String) (buttons : List (String × String))
deriving DecidableEq, Repr

/-! ## Message chunking (`sendWhatsAppMessage`, app.js lines 103-135)

The JS loop `for (let i = 0; i < message.length; i += MAX_MESSAGE_LENGTH)`
with `message.slice(i, i + MAX_MESSAGE_LENGTH)` splits the message into
consecutive chunks of at most `MAX_MESSAGE_LENGTH` characters. -/

def MAX_MESSAGE_LENGTH : Nat := 4096

/-- Fuel-indexed slicing loop; the fuel only serves structural
termination and any `fuel ≥ s.length` gives the same result
(`chunksGo_fuel`). -/
def chunksGo (fuel : Nat) (s : List Char) : List (List Char) :=
  match fuel, s with
  | _, [] => []
  | 0, _ :: _ => []
  | fuel + 1, c :: cs =>
    (c :: cs).take MAX_MESSAGE_LENGTH
      :: chunksGo fuel ((c :: cs).drop MAX_MESSAGE_LENGTH)

/-- The list of chunks produced by the slicing loop, in send order. -/
def chunksOf (s : List Char) : List (List Char) :=
  chunksGo s.length s

/-- One POST per chunk, starting at delivery-oracle call index `k`.
`deliver j` tells whether the `j`-th outbound call of this request gets an
ok response; a non-ok response throws (`if (!response.ok) throw`), aborting
the loop.  Returns (delivered effects, next call index, no-throw flag). -/
def sendChunksK (deliver : Nat → Bool) (k : Nat) (cs : List (List Char))
    (recipient : String) : List Effect × Nat × Bool :=
  match cs with
  | [] => ([], k, true)
  | c :: rest =>
    if deliver k then
      let r := sendChunksK deliver (k + 1) rest recipient
      (Effect.textChunk recipient c :: r.1, r.2.1, r.2.2)
    else ([], k + 1, false)

/-- `sendWhatsAppMessage(to, message)`: chunk and send; the `Bool` is
`false` exactly when the JS function throws (some chunk's POST failed). -/
def sendWhatsAppMessage (deliver : Nat → Bool) (recipient : String)
    (message : List Char) : List Effect × Bool :=
  let r := sendChunksK deliver 0 (chunksOf message) recipient
  (r.1, r.2.2)

/-! ## Journal search (`searchJournals`, app.js lines 45-81) -/

/-- The `citeScore` field of an extracted record: a number, or the string
`"N/A"` when `citeScoreYearInfoList?.citeScoreCurrentMetric` was absent or
falsy. -/
inductive CiteScore where
  | na
  | num (v : Int)
deriving DecidableEq, Repr

/-- An extracted journal record (the object built by the `.map` step). -/
structure JournalRecord where
  title : String
  citeScore : CiteScore
  scopusLink : String
deriving DecidableEq, Repr

/-- One raw entry of the backend's `serial-metadata-response.entry` list,
keeping only the fields the extraction step reads.  `none` models an
absent field; the JS `||`-defaults also treat the falsy values `""` and
`0` as absent, which the extraction function below reproduces. -/
structure RawEntry where
  dcTitle : Option String
  citeScoreCurrentMetric : Option Int
  scopusHref : Option String
deriving DecidableEq, Repr

/-- `x || "N/A"` on a JS string: the empty string is falsy. -/
def jsStringOrNA (x : Option String) : String :=
  match x with
  | none => "N/A"
  | some s => if s = "" then "N/A" else s

/-- `journal.citeScoreYearInfoList?.citeScoreCurrentMetric || "N/A"`:
a JS numeric `0` is falsy, so a zero metric also becomes `"N/A"`. -/
def jsCiteScoreOrNA (x : Option Int) : CiteScore :=
  match x with
  | none => CiteScore.na
  | some v => if v = 0 then CiteScore.na else CiteScore.num v

/-- The `.map` body: extract title, citeScore and the scopus-source link. -/
def extractRecord (e : RawEntry) : JournalRecord :=
  { title := jsStringOrNA e.dcTitle
    citeScore := jsCiteScoreOrNA e.citeScoreCurrentMetric
    scopusLink := jsStringOrNA e.scopusHref }

/-- The JS sort comparator:
`if (a.citeScore === "N/A") return 1; if (b.citeScore === "N/A") return -1;
return b.citeScore - a.citeScore;` -/
def jsCompare (a b : JournalRecord) : Int :=
  match a.citeScore, b.citeScore with
  | CiteScore.na, _ => 1
  | CiteScore.num _, CiteScore.na => -1
  | CiteScore.num x, CiteScore.num y => y - x

/-- Insert into a list already arranged per the comparator.  The source's
`Array.prototype.sort` leaves the relative order of two `"N/A"` entries
unspecified (the comparator is inconsistent on such pairs); insertion sort
realises one admissible order. -/
def jInsert (x : JournalRecord) : List JournalRecord → List JournalRecord
  | [] => [x]
  | y :: l => if jsCompare x y ≤ 0 then x :: y :: l else y :: jInsert x l

/-- A comparison sort per `jsCompare`. -/
def jSort : List JournalRecord → List JournalRecord
  | [] => []
  | x :: l => jInsert x (jSort l)

/-- The pure tail of `searchJournals` applied to the backend's entry list:
extract, sort by the comparator, truncate with `.slice(0, 20)`. -/
def searchJournalsPure (entries : List RawEntry) : List JournalRecord :=
  (jSort (entries.map extractRecord)).take 20

/-- `searchJournals(title)`: the fetch, its ok-check and the field access
`data["serial-metadata-response"].entry` are modelled by the `backend`
oracle (`Except.error` = thrown `BackendError`/shape error, rethrown by
the catch block). -/
def searchJournals (backend : String → Except Unit (List RawEntry))
    (title : String) : Except Unit (List JournalRecord) :=
  (backend title).map searchJournalsPure

/-- "a comes no later than b" in the ranked output: a numeric score is
ahead of every `"N/A"`, and numeric scores are descending. -/
def rankedBefore (a b : JournalRecord) : Prop :=
  match a.citeScore, b.citeScore with
  | CiteScore.num x, CiteScore.num y => y ≤ x
  | CiteScore.num _, CiteScore.na => True
  | CiteScore.na, CiteScore.na => True
  | CiteScore.na, CiteScore.num _ => False

/-! ## Title generation (`generateTitles`, app.js lines 26-41) -/

/-- The fixed instruction prompt built around the topic. -/
def titlePrompt (topic : String) : String :=
  "I am planning to write a research paper. The keywords of the domain are \""
    ++ topic
    ++ "\". Please generate 10 possible titles for my research paper. Only provide the titles in plain text, with no formatting (like bold, italics, or bullet points) but each topic with a numbering with each points have a gap in between."

/-- `generateTitles(topic)`: throws when the topic is falsy (the empty
string), otherwise calls the Gemini backend with the prompt (modelled by
the `gemini` oracle; its error is caught and rethrown) and returns the
trimmed response text. -/
def generateTitles (gemini : String → Except Unit String)
    (topic : String) : Except Unit String :=
  if topic = "" then Except.error ()
  else
    match gemini (titlePrompt topic) with
    | Except.ok t => Except.ok t.trim
    | Except.error e => Except.error e

/-! ## Webhook verification (GET /webhook, app.js lines 86-99)

The handler reads `hub.mode`, `hub.verify_token` and `hub.challenge` from
the query (each `none` when absent) and guards on JS truthiness
`if (mode && token)`: when either is absent or the empty string, the
handler returns without sending any response. -/

/-- The response of the GET handler: HTTP status plus the body passed to
`res.send` (the challenge, itself possibly absent). -/
structure GetResponse where
  status : Nat
  body : Option String
deriving DecidableEq, Repr

/-- `handleGet verifyToken mode token challenge = none` means no response
was sent at all. -/
def handleGet (verifyToken : String) (mode token challenge : Option String) :
    Option GetResponse :=
  match mode, token with
  | some m, some t =>
    if m = "" ∨ t = "" then none
    else if m = "subscribe" ∧ t = verifyToken then
      some { status := 200, body := challenge }
    else some { status := 403, body := none }
  | _, _ => none

/-! ## The conversation dispatcher (POST /webhook, app.js lines 210-313) -/

/-- The module-level mutable state: the `processedMessages` set (as the
list of its members) and the `userState` object (a key is absent exactly
when it maps to `none`). -/
structure ServerState where
  processed : List String
  userState : String → Option String

/-- `body.entry[0].changes[0].value.messages[0]` with the fields the
handler reads: `from`, `id`, `text.body` (absent when `messageData.text`
is falsy) and `interactive.button_reply.id` (absent when
`messageData.interactive` is falsy). -/
structure Message where
  sender : String
  id : String
  text : Option String
  interactive : Option String
deriving DecidableEq, Repr

/-- The inbound envelope: `object` is the truthiness of `body.object`;
`message` is `some` exactly when the whole chain
`entry[0].changes[0].value.messages[0]` is present. -/
structure WebhookBody where
  object : Bool
  message : Option Message
deriving DecidableEq, Repr

/-- The three external dependencies of one request: the Gemini call, the
Elsevier fetch (argument: the search title), and per-call WhatsApp
delivery success, indexed by the request's outbound-call count. -/
structure Oracles where
  gemini : String → Except Unit String
  search : String → Except Unit (List RawEntry)
  deliver : Nat → Bool

/-- `userState[phoneNumber] = value`. -/
def setUS (us : String → Option String) (p v : String) :
    String → Option String :=
  fun q => if q = p then some v else us q

/-- `delete userState[phoneNumber]`. -/
def delUS (us : String → Option String) (p : String) :
    String → Option String :=
  fun q => if q = p then none else us q

def topicPrompt : String := "Please enter the topic for your research paper:"
def journalPrompt : String := "Please enter the journal title to search for:"
def retryTopicMsg : String := "Error processing your message. Please try again."
def retryJournalMsg : String := "Error searching journals. Please try again."
def noJournalsMsg : String := "No journals found matching your search criteria."
def greetingMsg : String := "Hello! Choose an option:"
def greetingButtons : List (String × String) :=
  [("get_topics", "Topics"), ("search_journals", "Search Journals")]

/-- Display of a citeScore in the reply text. -/
def displayCite : CiteScore → String
  | CiteScore.na => "N/A"
  | CiteScore.num v => toString v

/-- The `journals.forEach` body building the numbered reply lines,
starting at index `i`. -/
def formatEntries (i : Nat) : List JournalRecord → String
  | [] => ""
  | j :: rest =>
    toString (i + 1) ++ ". " ++ j.title ++ "\n"
      ++ "   CiteScore: " ++ displayCite j.citeScore ++ "\n"
      ++ "   Scopus: " ++ j.scopusLink ++ "\n\n"
      ++ formatEntries (i + 1) rest

/-- The full `responseMessage` for a non-empty journal list. -/
def formatJournals (query : String) (js : List JournalRecord) : String :=
  "Top " ++ toString js.length ++ " journals matching \"" ++ query
    ++ "\":\n\n" ++ formatEntries 0 js

/-- One dispatch branch's outcome: the updated user-state map, the
delivered effects, and the HTTP status (500 when an exception escaped to
the outer catch). -/
abbrev DispatchResult := (String → Option String) × List Effect × Nat

/-- The button branch (app.js lines 239-248).  Note the state is written
before the prompt send, so a failed prompt delivery (a thrown
`DeliveryError` reaching the outer catch, hence 500) still leaves the new
state in place.  An unrecognized button id matches neither `if`, leaving
state and output untouched. -/
def buttonDispatch (o : Oracles) (us : String → Option String)
    (m : Message) (bid : String) : DispatchResult :=
  if bid = "get_topics" then
    let r := sendChunksK o.deliver 0 (chunksOf topicPrompt.data) m.sender
    (setUS us m.sender "waiting_for_topic", r.1, if r.2.2 then 200 else 500)
  else if bid = "search_journals" then
    let r := sendChunksK o.deliver 0 (chunksOf journalPrompt.data) m.sender
    (setUS us m.sender "waiting_for_journal_title", r.1,
      if r.2.2 then 200 else 500)
  else (us, [], 200)

/-- The `waiting_for_topic` branch (app.js lines 250-262).  The inner
catch handles both adapter failure and a delivery failure of the titles
message; the retry send inside the catch is itself unguarded, so its
failure reaches the outer catch (500) before `delete userState` runs. -/
def topicDispatch (o : Oracles) (us : String → Option String)
    (m : Message) : DispatchResult :=
  let msg := m.text.getD ""
  match generateTitles o.gemini msg with
  | Except.ok titles =>
    let r := sendChunksK o.deliver 0 (chunksOf titles.data) m.sender
    if r.2.2 then (delUS us m.sender, r.1, 200)
    else
      let r2 := sendChunksK o.deliver r.2.1 (chunksOf retryTopicMsg.data) m.sender
      if r2.2.2 then (delUS us m.sender, r.1 ++ r2.1, 200)
      else (us, r.1 ++ r2.1, 500)
  | Except.error _ =>
    let r2 := sendChunksK o.deliver 0 (chunksOf retryTopicMsg.data) m.sender
    if r2.2.2 then (delUS us m.sender, r2.1, 200)
    else (us, r2.1, 500)

/-- The `waiting_for_journal_title` branch (app.js lines 265-291), with
the same catch structure as the topic branch. -/
def journalDispatch (o : Oracles) (us : String → Option String)
    (m : Message) : DispatchResult :=
  let msg := m.text.getD ""
  match searchJournals o.search msg with
  | Except.ok journals =>
    let body := if journals.length = 0 then noJournalsMsg
                else formatJournals msg journals
    let r := sendChunksK o.deliver 0 (chunksOf body.data) m.sender
    if r.2.2 then (delUS us m.sender, r.1, 200)
    else
      let r2 := sendChunksK o.deliver r.2.1 (chunksOf retryJournalMsg.data) m.sender
      if r2.2.2 then (delUS us m.sender, r.1 ++ r2.1, 200)
      else (us, r.1 ++ r2.1, 500)
  | Except.error _ =>
    let r2 := sendChunksK o.deliver 0 (chunksOf retryJournalMsg.data) m.sender
    if r2.2.2 then (delUS us m.sender, r2.1, 200)
    else (us, r2.1, 500)

/-- The greeting branch (app.js lines 295-300): `sendGreeting` makes one
buttons POST; a failure throws to the outer catch (500). -/
def greetingDispatch (o : Oracles) (us : String → Option String)
    (m : Message) : DispatchResult :=
  if o.deliver 0 then
    (us, [Effect.choices m.sender greetingMsg greetingButtons], 200)
  else (us, [], 500)

/-- The dispatch chain (app.js lines 239-300): the interactive check comes
first and never consults the user state; then the two state-equality
checks; the final `else` greets only when no state is recorded. -/
def dispatch (o : Oracles) (us : String → Option String)
    (m : Message) : DispatchResult :=
  match m.interactive with
  | some bid => buttonDispatch o us m bid
  | none =>
    if us m.sender = some "waiting_for_topic" then topicDispatch o us m
    else if us m.sender = some "waiting_for_journal_title" then
      journalDispatch o us m
    else if us m.sender = none then greetingDispatch o us m
    else (us, [], 200)

/-- The whole POST /webhook handler: envelope guard, duplicate
short-circuit (`return res.status(200)` before any user-state access),
recording of the message id before dispatch, then the dispatch chain.
Returns the final server state, the delivered effects, and the HTTP
status. -/
def handlePost (o : Oracles) (s : ServerState) (b : WebhookBody) :
    ServerState × List Effect × Nat :=
  match b.object, b.message with
  | true, some m =>
    if m.id ∈ s.processed then (s, [], 200)
    else
      let d := dispatch o s.userState m
      ({ processed := m.id :: s.processed, userState := d.1 }, d.2.1, d.2.2)
  | _, _ => (s, [], 200)

/-! ## Predicates and concrete fixtures -/

/-- The values a present `userState` entry may hold. -/
def StateInv (us : String → Option String) : Prop :=
  ∀ p v, us p = some v →
    v = "waiting_for_topic" ∨ v = "waiting_for_journal_title"

/-- The §8 ranking example: citeScores `[5, unknown, 9, unknown, 3]`. -/
def exampleEntries : List RawEntry :=
  [{ dcTitle := some "A", citeScoreCurrentMetric := some 5, scopusHref := some "sA" },
   { dcTitle := some "B", citeScoreCurrentMetric := none, scopusHref := some "sB" },
   { dcTitle := some "C", citeScoreCurrentMetric := some 9, scopusHref := some "sC" },
   { dcTitle := some "D", citeScoreCurrentMetric := none, scopusHref := some "sD" },
   { dcTitle := some "E", citeScoreCurrentMetric := some 3, scopusHref := some "sE" }]

/-- Both backends answer, every delivery succeeds. -/
def oracleOk : Oracles :=
  { gemini := fun _ => Except.ok "1. T"
    search := fun _ => Except.ok []
    deliver := fun _ => true }

/-- Both backends fail (simulated 500s), every delivery succeeds. -/
def oracleErr : Oracles :=
  { gemini := fun _ => Except.error ()
    search := fun _ => Except.error ()
    deliver := fun _ => true }

/-- Backends answer but every outbound delivery fails. -/
def oracleNoDelivery : Oracles :=
  { gemini := fun _ => Except.ok "1. T"
    search := fun _ => Except.ok []
    deliver := fun _ => false }

/-- Fresh server: nothing processed, no user state. -/
def sEmpty : ServerState := { processed := [], userState := fun _ => none }

/-- User `"u"` is awaiting a topic. -/
def sAwaitTopic : ServerState :=
  { processed := []
    userState := fun p => if p = "u" then some "waiting_for_topic" else none }

/-- User `"u"` is awaiting a journal query. -/
def sAwaitJournal : ServerState :=
  { processed := []
    userState := fun p =>
      if p = "u" then some "waiting_for_journal_title" else none }

/-- A plain-text message from `"u"`. -/
def bText : WebhookBody :=
  { object := true, message := some ⟨"u", "m1", some "hi", none⟩ }

/-- A `search_journals` button press from `"u"`. -/
def bBtnSearch : WebhookBody :=
  { object := true, message := some ⟨"u", "m1", none, some "search_journals"⟩ }

/-- A `get_topics` button press from `"u"`. -/
def bBtnTopics : WebhookBody :=
  { object := true, message := some ⟨"u", "m2", none, some "get_topics"⟩ }

/-- A button press with an unrecognized id from `"u"`. -/
def bBtnOther : WebhookBody :=
  { object := true, message := some ⟨"u", "m3", none, some "mystery"⟩ }

/-! ## Lemmas -/

theorem chunksGo_fuel (f1 : Nat) : ∀ (f2 : Nat) (s : List Char),
    s.length ≤ f1 → s.length ≤ f2 → chunksGo f1 s = chunksGo f2 s := by
  induction f1 with
  | zero =>
    intro f2 s h1 _
    have hs : s = [] := List.length_eq_zero.mp (Nat.le_zero.mp h1)
    subst hs
    cases f2 <;> simp [chunksGo]
  | succ f1 ih =>
    intro f2 s h1 h2
    match s with
    | [] => cases f2 <;> simp [chunksGo]
    | c :: cs =>
      match f2 with
      | 0 => simp at h2
      | f2 + 1 =>
        simp only [chunksGo]
        have hd : ((c :: cs).drop MAX_MESSAGE_LENGTH).length ≤ f1 := by
          simp only [List.length_drop, List.length_cons, MAX_MESSAGE_LENGTH]
          simp only [List.length_cons] at h1
          omega
        have hd2 : ((c :: cs).drop MAX_MESSAGE_LENGTH).length ≤ f2 := by
          simp only [List.length_drop, List.length_cons, MAX_MESSAGE_LENGTH]
          simp only [List.length_cons] at h2
          omega
        rw [ih f2 _ hd hd2]

/-! ### Sorting lemmas -/

theorem jInsert_perm (x : JournalRecord) (l : List JournalRecord) :
    (jInsert x l).Perm (x :: l) := by
  induction l with
  | nil => simp [jInsert]
  | cons y l ih =>
    simp only [jInsert]
    by_cases h : jsCompare x y ≤ 0
    · simp [h]
    · simp only [h, if_false]
      exact ((ih.cons y).trans (List.Perm.swap x y l))

theorem jSort_perm (l : List JournalRecord) : (jSort l).Perm l := by
  induction l with
  | nil => simp [jSort]
  | cons x l ih =>
    exact (jInsert_perm x (jSort l)).trans (ih.cons x)

theorem rankedBefore_of_le (x y : JournalRecord) (h : jsCompare x y ≤ 0) :
    rankedBefore x y := by
  unfold jsCompare at h
  unfold rankedBefore
  rcases hx : x.citeScore with _ | a <;> rcases hy : y.citeScore with _ | b <;>
    simp [hx, hy] at h ⊢ <;> omega

theorem rankedBefore_of_pos (x y : JournalRecord) (h : 0 < jsCompare x y) :
    rankedBefore y x := by
  unfold jsCompare at h
  unfold rankedBefore
  rcases hx : x.citeScore with _ | a <;> rcases hy : y.citeScore with _ | b <;>
    simp [hx, hy] at h ⊢ <;> omega

theorem rankedBefore_trans (x y z : JournalRecord)
    (h1 : rankedBefore x y) (h2 : rankedBefore y z) : rankedBefore x z := by
  unfold rankedBefore at h1 h2 ⊢
  rcases hx : x.citeScore with _ | a <;> rcases hy : y.citeScore with _ | b <;>
      rcases hz : z.citeScore with _ | c <;> simp_all
  omega

theorem mem_jInsert (z x : JournalRecord) (l : List JournalRecord)
    (h : z ∈ jInsert x l) : z = x ∨ z ∈ l :=
  List.mem_cons.mp ((jInsert_perm x l).mem_iff.mp h)

theorem pairwise_jInsert (x : JournalRecord) (l : List JournalRecord)
    (h : l.Pairwise rankedBefore) :
    (jInsert x l).Pairwise rankedBefore := by
  induction l with
  | nil => simp [jInsert]
  | cons y l ih =>
    rcases List.pairwise_cons.mp h with ⟨hy, hl⟩
    simp only [jInsert]
    by_cases hc : jsCompare x y ≤ 0
    · simp only [hc, if_true]
      refine List.pairwise_cons.mpr ⟨?_, h⟩
      intro z hz
      rcases List.mem_cons.mp hz with hz | hz
      · exact hz ▸ rankedBefore_of_le x y hc
      · exact rankedBefore_trans x y z (rankedBefore_of_le x y hc) (hy z hz)
    · simp only [hc, if_false]
      refine List.pairwise_cons.mpr ⟨?_, ih hl⟩
      intro z hz
      rcases mem_jInsert z x l hz with hz | hz
      · exact hz ▸ rankedBefore_of_pos x y (by omega)
      · exact hy z hz

theorem pairwise_jSort (l : List JournalRecord) :
    (jSort l).Pairwise rankedBefore := by
  induction l with
  | nil => simp [jSort]
  | cons x l ih => exact pairwise_jInsert x (jSort l) ih

/-! ### Chunking lemmas -/

theorem chunksOf_eq_nil : chunksOf [] = [] := rfl

theorem chunksOf_eq_cons (s : List Char) (h : s ≠ []) :
    chunksOf s = s.take MAX_MESSAGE_LENGTH :: chunksOf (s.drop MAX_MESSAGE_LENGTH) := by
  match s, h with
  | c :: cs, _ =>
    show chunksGo (c :: cs).length (c :: cs) = _
    simp only [List.length_cons, chunksGo]
    rw [chunksGo_fuel cs.length ((c :: cs).drop MAX_MESSAGE_LENGTH).length
      ((c :: cs).drop MAX_MESSAGE_LENGTH) ?hle le_rfl]
    case hle =>
      simp only [List.length_drop, List.length_cons, MAX_MESSAGE_LENGTH]
      omega
    rfl

theorem chunksOf_flatten (s : List Char) : (chunksOf s).flatten = s := by
  generalize hn : s.length = n
  induction n using Nat.strong_induction_on generalizing s with
  | _ n ih =>
    by_cases h : s = []
    · subst h; simp [chunksOf_eq_nil]
    · rw [chunksOf_eq_cons s h]
      have hpos : 0 < s.length := List.length_pos.mpr h
      have hlt : (s.drop MAX_MESSAGE_LENGTH).length < n := by
        simp only [List.length_drop, MAX_MESSAGE_LENGTH]
        omega
      simp only [List.flatten_cons]
      rw [ih _ hlt _ rfl]
      exact List.take_append_drop _ s

theorem chunksOf_length (s : List Char) :
    (chunksOf s).length = (s.length + (MAX_MESSAGE_LENGTH - 1)) / MAX_MESSAGE_LENGTH := by
  generalize hn : s.length = n
  induction n using Nat.strong_induction_on generalizing s with
  | _ n ih =>
    by_cases h : s = []
    · subst h
      have hz : n = 0 := by simpa using hn.symm
      subst hz
      rw [chunksOf_eq_nil]
      decide
    · rw [chunksOf_eq_cons s h]
      have hpos : 0 < s.length := List.length_pos.mpr h
      have hlt : (s.drop MAX_MESSAGE_LENGTH).length < n := by
        simp only [List.length_drop, MAX_MESSAGE_LENGTH]
        omega
      rw [List.length_cons, ih _ hlt _ rfl]
      simp only [List.length_drop, MAX_MESSAGE_LENGTH]
      omega

theorem chunksOf_chunk_le (s c : List Char) (hc : c ∈ chunksOf s) :
    c.length ≤ MAX_MESSAGE_LENGTH := by
  generalize hn : s.length = n
  induction n using Nat.strong_induction_on generalizing s with
  | _ n ih =>
    by_cases h : s = []
    · subst h; simp [chunksOf_eq_nil] at hc
    · rw [chunksOf_eq_cons s h] at hc
      have hpos : 0 < s.length := List.length_pos.mpr h
      have hlt : (s.drop MAX_MESSAGE_LENGTH).length < n := by
        simp only [List.length_drop, MAX_MESSAGE_LENGTH]
        omega
      rcases List.mem_cons.mp hc with hc | hc
      · subst hc; simpa using List.length_take_le _ s
      · exact ih _ hlt _ hc rfl

theorem chunksOf_short (s : List Char) (h : s ≠ [])
    (hlen : s.length ≤ MAX_MESSAGE_LENGTH) : chunksOf s = [s] := by
  rw [chunksOf_eq_cons s h, List.take_of_length_le hlen,
    List.drop_eq_nil_of_le hlen, chunksOf_eq_nil]

/-! ### Send-loop lemmas -/

theorem sendChunksK_allOk (deliver : Nat → Bool) (j : Nat)
    (cs : List (List Char)) (recipient : String)
    (hd : ∀ k, deliver k = true) :
    sendChunksK deliver j cs recipient =
      (cs.map (Effect.textChunk recipient), j + cs.length, true) := by
  induction cs generalizing j with
  | nil => simp [sendChunksK]
  | cons c rest ih =>
    simp only [sendChunksK, hd j, if_true, ih (j + 1), List.map_cons,
      List.length_cons, Prod.mk.injEq]
    exact ⟨trivial, by omega, trivial⟩

theorem sendChunksK_failAt (deliver : Nat → Bool) (j i : Nat)
    (cs : List (List Char)) (recipient : String)
    (hi : i < cs.length)
    (hok : ∀ k, k < i → deliver (j + k) = true)
    (hfail : deliver (j + i) = false) :
    sendChunksK deliver j cs recipient =
      ((cs.take i).map (Effect.textChunk recipient), j + i + 1, false) := by
  induction cs generalizing j i with
  | nil => simp at hi
  | cons c rest ih =>
    match i with
    | 0 =>
      simp only [Nat.add_zero] at hfail
      simp [sendChunksK, hfail]
    | i' + 1 =>
      have h0 : deliver j = true := by
        have := hok 0 (by omega)
        simpa using this
      simp only [sendChunksK, h0, if_true]
      have hok2 : ∀ k, k < i' → deliver (j + 1 + k) = true := by
        intro k hk
        have := hok (k + 1) (by omega)
        have harith : j + (k + 1) = j + 1 + k := by omega
        rw [harith] at this
        exact this
      have hfail2 : deliver (j + 1 + i') = false := by
        have harith : j + (i' + 1) = j + 1 + i' := by omega
        rw [harith] at hfail
        exact hfail
      rw [ih (j + 1) i' (by simpa using Nat.lt_of_succ_lt_succ hi) hok2 hfail2]
      simp only [List.take_succ_cons, List.map_cons, Prod.mk.injEq]
      exact ⟨trivial, by omega, trivial⟩

/-! ### Small helper lemmas for the dispatcher -/

theorem sendChunksK_single (deliver : Nat → Bool) (k : Nat) (str : String)
    (recipient : String) (hne : str.data ≠ [])
    (hlen : str.data.length ≤ MAX_MESSAGE_LENGTH) (hd : deliver k = true) :
    sendChunksK deliver k (chunksOf str.data) recipient
      = ([Effect.textChunk recipient str.data], k + 1, true) := by
  rw [chunksOf_short str.data hne hlen]
  simp [sendChunksK, hd]

theorem delUS_same (us : String → Option String) (p : String) :
    delUS us p p = none := by
  simp [delUS]

theorem setUS_same (us : String → Option String) (p v : String) :
    setUS us p v p = some v := by
  simp [setUS]

theorem handlePost_eq (o : Oracles) (s : ServerState) (b : WebhookBody)
    (m : Message) (hobj : b.object = true) (hmsg : b.message = some m) :
    handlePost o s b
      = if m.id ∈ s.processed then (s, [], 200)
        else ({ processed := m.id :: s.processed,
                userState := (dispatch o s.userState m).1 },
              (dispatch o s.userState m).2.1,
              (dispatch o s.userState m).2.2) := by
  obtain ⟨obj, msg⟩ := b
  dsimp only at hobj hmsg
  subst hobj
  subst hmsg
  rfl

theorem dispatch_button (o : Oracles) (us : String → Option String)
    (m : Message) (bid : String) (h : m.interactive = some bid) :
    dispatch o us m = buttonDispatch o us m bid := by
  unfold dispatch
  rw [h]

theorem dispatch_text (o : Oracles) (us : String → Option String)
    (m : Message) (h : m.interactive = none) :
    dispatch o us m
      = if us m.sender = some "waiting_for_topic" then topicDispatch o us m
        else if us m.sender = some "waiting_for_journal_title" then
          journalDispatch o us m
        else if us m.sender = none then greetingDispatch o us m
        else (us, [], 200) := by
  unfold dispatch
  rw [h]

theorem buttonDispatch_topics (o : Oracles) (us : String → Option String)
    (m : Message) (hd : o.deliver 0 = true) :
    buttonDispatch o us m "get_topics"
      = (setUS us m.sender "waiting_for_topic",
         [Effect.textChunk m.sender topicPrompt.data], 200) := by
  simp only [buttonDispatch, if_pos rfl,
    sendChunksK_single o.deliver 0 topicPrompt m.sender (by decide) (by decide) hd]
  simp

theorem buttonDispatch_search (o : Oracles) (us : String → Option String)
    (m : Message) (hd : o.deliver 0 = true) :
    buttonDispatch o us m "search_journals"
      = (setUS us m.sender "waiting_for_journal_title",
         [Effect.textChunk m.sender journalPrompt.data], 200) := by
  have hne : ("search_journals" : String) ≠ "get_topics" := by decide
  simp only [buttonDispatch, if_neg hne, if_pos rfl,
    sendChunksK_single o.deliver 0 journalPrompt m.sender (by decide) (by decide) hd]
  simp

/-! ## Claim theorems -/

/-- C1: a webhook event whose message id is already in
`processedMessages` is acknowledged with 200 and produces no state change
and no outbound effect; a fresh id is recorded in the resulting
`processedMessages` in every dispatch branch, so re-delivering the same
message afterwards (under any oracles) again changes nothing and sends
nothing: the two deliveries together produce exactly the first run's
outbound effects. -/
theorem webhook_idempotent (o o2 : Oracles) (s : ServerState)
    (b : WebhookBody) (m : Message)
    (hobj : b.object = true) (hmsg : b.message = some m) :
    (m.id ∈ s.processed → handlePost o s b = (s, [], 200))
    ∧ m.id ∈ (handlePost o s b).1.processed
    ∧ handlePost o2 (handlePost o s b).1 b
        = ((handlePost o s b).1, [], 200) := by
  rw [handlePost_eq o s b m hobj hmsg]
  by_cases hmem : m.id ∈ s.processed
  · rw [if_pos hmem]
    exact ⟨fun _ => rfl, hmem, by rw [handlePost_eq o2 s b m hobj hmsg, if_pos hmem]⟩
  · rw [if_neg hmem]
    refine ⟨fun h => absurd h hmem, List.mem_cons_self _ _, ?_⟩
    rw [handlePost_eq o2 _ b m hobj hmsg, if_pos (List.mem_cons_self _ _)]

/-- C1 witness: a fresh greeting-path message, then the same message
again: the id is recorded and the second delivery is a no-op. -/
theorem webhook_idempotent_witness :
    "m1" ∈ (handlePost oracleOk sEmpty bText).1.processed
    ∧ handlePost oracleOk (handlePost oracleOk sEmpty bText).1 bText
        = ((handlePost oracleOk sEmpty bText).1, [], 200) :=
  ⟨(webhook_idempotent oracleOk oracleOk sEmpty bText
      ⟨"u", "m1", some "hi", none⟩ rfl rfl).2.1,
   (webhook_idempotent oracleOk oracleOk sEmpty bText
      ⟨"u", "m1", some "hi", none⟩ rfl rfl).2.2⟩

/-- C5: `sendWhatsAppMessage` splits the text into consecutive chunks of
at most 4096 characters and sends them as separate messages in order:
with every delivery succeeding, the delivered effects are exactly the
chunks in order, there are exactly `⌈L / 4096⌉` of them, every chunk has
length at most 4096, and the chunks concatenate back to the original
text. -/
theorem sendText_chunking (recipient : String) (msg : List Char) :
    (sendWhatsAppMessage (fun _ => true) recipient msg).1
        = (chunksOf msg).map (Effect.textChunk recipient)
    ∧ (sendWhatsAppMessage (fun _ => true) recipient msg).2 = true
    ∧ (sendWhatsAppMessage (fun _ => true) recipient msg).1.length
        = (msg.length + (MAX_MESSAGE_LENGTH - 1)) / MAX_MESSAGE_LENGTH
    ∧ (∀ c ∈ chunksOf msg, c.length ≤ MAX_MESSAGE_LENGTH)
    ∧ (chunksOf msg).flatten = msg := by
  have h := sendChunksK_allOk (fun _ => true) 0 (chunksOf msg) recipient
    (fun _ => rfl)
  unfold sendWhatsAppMessage
  rw [h]
  exact ⟨rfl, rfl, by simp [chunksOf_length msg],
    chunksOf_chunk_le msg, chunksOf_flatten msg⟩

/-- C8: if the chunk at position `i` fails to send (all earlier chunks
having been delivered), `sendWhatsAppMessage` delivers exactly chunks
`0..i-1` in order, sends nothing after position `i`, and throws
(`DeliveryError`), reported here as the `false` flag. -/
theorem sendText_abort_on_failure (deliver : Nat → Bool)
    (recipient : String) (msg : List Char) (i : Nat)
    (hi : i < (chunksOf msg).length)
    (hok : ∀ j, j < i → deliver j = true) (hfail : deliver i = false) :
    sendWhatsAppMessage deliver recipient msg
      = (((chunksOf msg).take i).map (Effect.textChunk recipient), false) := by
  have h := sendChunksK_failAt deliver 0 i (chunksOf msg) recipient hi
    (fun k hk => by simpa using hok k hk) (by simpa using hfail)
  unfold sendWhatsAppMessage
  rw [h]

/-- C8 witness: with a delivery oracle failing from the first call, a
one-chunk message delivers nothing and reports failure. -/
theorem sendText_abort_on_failure_witness :
    0 < (chunksOf ("hi".data)).length
    ∧ sendWhatsAppMessage (fun _ => false) "u" ("hi".data) = ([], false) :=
  ⟨by decide, by
    have h := sendText_abort_on_failure (fun _ => false) "u" ("hi".data) 0
      (by decide) (fun j hj => absurd hj (by omega)) rfl
    simpa using h⟩

/-- C6: the journal-search adapter maps the backend result list through
extraction, sorts descending by citeScore with every unknown (`"N/A"`)
score after every numeric score (two unknowns in arbitrary relative
order, realised by the sort below), truncates to at most the first 20
entries after sorting; in particular for citeScores
`[5, unknown, 9, unknown, 3]` the output order is 9, 5, 3 followed by
the two unknown entries. -/
theorem searchJournals_ranking :
    (∀ (backend : String → Except Unit (List RawEntry)) (title : String),
      searchJournals backend title = (backend title).map searchJournalsPure)
    ∧ (∀ entries : List RawEntry,
        ∃ l : List JournalRecord,
          l.Perm (entries.map extractRecord)
          ∧ l.Pairwise rankedBefore
          ∧ searchJournalsPure entries = l.take 20
          ∧ (searchJournalsPure entries).length ≤ 20)
    ∧ (searchJournalsPure exampleEntries).map (fun j => j.citeScore)
        = [CiteScore.num 9, CiteScore.num 5, CiteScore.num 3,
           CiteScore.na, CiteScore.na] := by
  refine ⟨fun backend title => rfl, fun entries => ?_, by decide⟩
  refine ⟨jSort (entries.map extractRecord),
    jSort_perm (entries.map extractRecord),
    pairwise_jSort (entries.map extractRecord), rfl, ?_⟩
  simpa [searchJournalsPure] using
    List.length_take_le 20 (jSort (entries.map extractRecord))

/-- C2 counterexample: the claim says a selection event received while
the user is in `AwaitingTopic` is unhandled and falls through without
changing state or sending a message; on the code, a `search_journals`
button press from user `"u"` who is in `waiting_for_topic` overwrites the
state to `waiting_for_journal_title` and sends the journal prompt. -/
theorem selection_in_awaiting_handled :
    sAwaitTopic.userState "u" = some "waiting_for_topic"
    ∧ (handlePost oracleOk sAwaitTopic bBtnSearch).1.userState "u"
        = some "waiting_for_journal_title"
    ∧ (handlePost oracleOk sAwaitTopic bBtnSearch).2.1
        = [Effect.textChunk "u" journalPrompt.data] :=
  ⟨by decide, by decide, by decide⟩

/-- C2 amended: the interactive check precedes every state check, so a
recognized selection event is actionable in every user state: it sets the
corresponding awaiting state and sends its prompt, whatever the sender's
current state was. -/
theorem selection_actionable_any_state (o : Oracles) (s : ServerState)
    (b : WebhookBody) (m : Message) (bid : String)
    (hobj : b.object = true) (hmsg : b.message = some m)
    (hfresh : m.id ∉ s.processed) (hint : m.interactive = some bid)
    (hd : o.deliver 0 = true) :
    (bid = "get_topics" →
      handlePost o s b
        = ({ processed := m.id :: s.processed,
             userState := setUS s.userState m.sender "waiting_for_topic" },
           [Effect.textChunk m.sender topicPrompt.data], 200))
    ∧ (bid = "search_journals" →
      handlePost o s b
        = ({ processed := m.id :: s.processed,
             userState := setUS s.userState m.sender "waiting_for_journal_title" },
           [Effect.textChunk m.sender journalPrompt.data], 200)) := by
  rw [handlePost_eq o s b m hobj hmsg, if_neg hfresh,
    dispatch_button o s.userState m bid hint]
  constructor
  · intro hbid
    subst hbid
    rw [buttonDispatch_topics o s.userState m hd]
  · intro hbid
    subst hbid
    rw [buttonDispatch_search o s.userState m hd]

/-- C2 amended witness: both selections act from inside an awaiting
state. -/
theorem selection_actionable_any_state_witness :
    handlePost oracleOk sAwaitTopic bBtnSearch
      = ({ processed := ["m1"],
           userState := setUS sAwaitTopic.userState "u" "waiting_for_journal_title" },
         [Effect.textChunk "u" journalPrompt.data], 200)
    ∧ handlePost oracleOk sAwaitJournal bBtnTopics
      = ({ processed := ["m2"],
           userState := setUS sAwaitJournal.userState "u" "waiting_for_topic" },
         [Effect.textChunk "u" topicPrompt.data], 200) :=
  ⟨(selection_actionable_any_state oracleOk sAwaitTopic bBtnSearch
      ⟨"u", "m1", none, some "search_journals"⟩ "search_journals"
      rfl rfl (by decide) rfl rfl).2 rfl,
   (selection_actionable_any_state oracleOk sAwaitJournal bBtnTopics
      ⟨"u", "m2", none, some "get_topics"⟩ "get_topics"
      rfl rfl (by decide) rfl rfl).1 rfl⟩

/-- C10: a fresh selection event whose button id is neither `get_topics`
nor `search_journals` records the message id, responds 200, leaves the
user-state map untouched and sends nothing. -/
theorem unknown_button_ignored (o : Oracles) (s : ServerState)
    (b : WebhookBody) (m : Message) (bid : String)
    (hobj : b.object = true) (hmsg : b.message = some m)
    (hfresh : m.id ∉ s.processed) (hint : m.interactive = some bid)
    (h1 : bid ≠ "get_topics") (h2 : bid ≠ "search_journals") :
    handlePost o s b
      = ({ processed := m.id :: s.processed, userState := s.userState },
         [], 200) := by
  rw [handlePost_eq o s b m hobj hmsg, if_neg hfresh,
    dispatch_button o s.userState m bid hint]
  unfold buttonDispatch
  rw [if_neg h1, if_neg h2]

/-- C10 witness: a `mystery` button press changes nothing but the
processed set. -/
theorem unknown_button_ignored_witness :
    handlePost oracleOk sAwaitTopic bBtnOther
      = ({ processed := ["m3"], userState := sAwaitTopic.userState },
         [], 200) :=
  unknown_button_ignored oracleOk sAwaitTopic bBtnOther
    ⟨"u", "m3", none, some "mystery"⟩ "mystery"
    rfl rfl (by decide) rfl (by decide) (by decide)

/-- C3: when the invoked adapter fails — title generation while awaiting
a topic, or journal search while awaiting a journal query — the user's
entry is removed from the state map and exactly one generic retry
message (the branch's fixed retry text, a single chunk) is delivered,
with a 200 response. -/
theorem adapter_failure_resets_state (o : Oracles) (s : ServerState)
    (b : WebhookBody) (m : Message)
    (hobj : b.object = true) (hmsg : b.message = some m)
    (hfresh : m.id ∉ s.processed) (hint : m.interactive = none)
    (hd : o.deliver 0 = true) :
    (s.userState m.sender = some "waiting_for_topic" →
      generateTitles o.gemini (m.text.getD "") = Except.error () →
      (handlePost o s b).1.userState m.sender = none
      ∧ (handlePost o s b).2.1
          = [Effect.textChunk m.sender retryTopicMsg.data]
      ∧ (handlePost o s b).2.2 = 200)
    ∧ (s.userState m.sender = some "waiting_for_journal_title" →
      searchJournals o.search (m.text.getD "") = Except.error () →
      (handlePost o s b).1.userState m.sender = none
      ∧ (handlePost o s b).2.1
          = [Effect.textChunk m.sender retryJournalMsg.data]
      ∧ (handlePost o s b).2.2 = 200) := by
  rw [handlePost_eq o s b m hobj hmsg, if_neg hfresh,
    dispatch_text o s.userState m hint]
  constructor
  · intro hst hgen
    rw [if_pos hst]
    simp only [topicDispatch, hgen,
      sendChunksK_single o.deliver 0 retryTopicMsg m.sender
        (by decide) (by decide) hd]
    exact ⟨delUS_same _ _, rfl, rfl⟩
  · intro hst hsearch
    rw [if_neg (by simp [hst]), if_pos hst]
    simp only [journalDispatch, hsearch,
      sendChunksK_single o.deliver 0 retryJournalMsg m.sender
        (by decide) (by decide) hd]
    exact ⟨delUS_same _ _, rfl, rfl⟩

/-- C3 witness: both adapter-failure branches at concrete inputs. -/
theorem adapter_failure_resets_state_witness :
    ((handlePost oracleErr sAwaitTopic bText).1.userState "u" = none
      ∧ (handlePost oracleErr sAwaitTopic bText).2.1
          = [Effect.textChunk "u" retryTopicMsg.data]
      ∧ (handlePost oracleErr sAwaitTopic bText).2.2 = 200)
    ∧ ((handlePost oracleErr sAwaitJournal bText).1.userState "u" = none
      ∧ (handlePost oracleErr sAwaitJournal bText).2.1
          = [Effect.textChunk "u" retryJournalMsg.data]
      ∧ (handlePost oracleErr sAwaitJournal bText).2.2 = 200) :=
  ⟨(adapter_failure_resets_state oracleErr sAwaitTopic bText
      ⟨"u", "m1", some "hi", none⟩ rfl rfl (by decide) rfl rfl).1
      (by decide) rfl,
   (adapter_failure_resets_state oracleErr sAwaitJournal bText
      ⟨"u", "m1", some "hi", none⟩ rfl rfl (by decide) rfl rfl).2
      (by decide) rfl⟩

/-- C4 counterexample: the claim says adapter and delivery errors never
propagate to the webhook HTTP response (status 200 whenever the envelope
parses); on the code, a fresh plain-text message from an unknown user
whose greeting delivery fails reaches the outer catch and yields 500. -/
theorem delivery_error_propagates :
    bText.object = true
    ∧ (handlePost oracleNoDelivery sEmpty bText).2.2 = 500 :=
  ⟨rfl, by decide⟩

theorem greetingDispatch_status_ok (o : Oracles)
    (us : String → Option String) (m : Message)
    (hd : ∀ k, o.deliver k = true) :
    (greetingDispatch o us m).2.2 = 200 := by
  simp [greetingDispatch, hd 0]

theorem buttonDispatch_status_ok (o : Oracles)
    (us : String → Option String) (m : Message) (bid : String)
    (hd : ∀ k, o.deliver k = true) :
    (buttonDispatch o us m bid).2.2 = 200 := by
  have hrw : ∀ j cs rcp, sendChunksK o.deliver j cs rcp
      = (cs.map (Effect.textChunk rcp), j + cs.length, true) :=
    fun j cs rcp => sendChunksK_allOk o.deliver j cs rcp hd
  unfold buttonDispatch
  split_ifs <;> simp [hrw]

theorem topicDispatch_status_ok (o : Oracles)
    (us : String → Option String) (m : Message)
    (hd : ∀ k, o.deliver k = true) :
    (topicDispatch o us m).2.2 = 200 := by
  have hrw : ∀ j cs rcp, sendChunksK o.deliver j cs rcp
      = (cs.map (Effect.textChunk rcp), j + cs.length, true) :=
    fun j cs rcp => sendChunksK_allOk o.deliver j cs rcp hd
  unfold topicDispatch
  rcases hgen : generateTitles o.gemini (m.text.getD "") with e | t <;>
    simp [hgen, hrw]

theorem journalDispatch_status_ok (o : Oracles)
    (us : String → Option String) (m : Message)
    (hd : ∀ k, o.deliver k = true) :
    (journalDispatch o us m).2.2 = 200 := by
  have hrw : ∀ j cs rcp, sendChunksK o.deliver j cs rcp
      = (cs.map (Effect.textChunk rcp), j + cs.length, true) :=
    fun j cs rcp => sendChunksK_allOk o.deliver j cs rcp hd
  unfold journalDispatch
  rcases hs : searchJournals o.search (m.text.getD "") with e | js <;>
    simp [hs, hrw]

theorem dispatch_status_ok (o : Oracles) (us : String → Option String)
    (m : Message) (hd : ∀ k, o.deliver k = true) :
    (dispatch o us m).2.2 = 200 := by
  rcases hi : m.interactive with _ | bid
  · rw [dispatch_text o us m hi]
    split_ifs
    · exact topicDispatch_status_ok o us m hd
    · exact journalDispatch_status_ok o us m hd
    · exact greetingDispatch_status_ok o us m hd
    · rfl
  · rw [dispatch_button o us m bid hi]
    exact buttonDispatch_status_ok o us m bid hd

/-- C4 amended: adapter errors never propagate to the webhook HTTP
response — whenever every outbound delivery succeeds the endpoint
responds 200 for every request and server state, whatever the adapters
do; but a failed outbound delivery in a send not guarded by an inner
catch (greeting, selection prompts, retry messages) escapes to the outer
catch and yields 500 (see the counterexample). -/
theorem status_200_when_delivery_ok (o : Oracles) (s : ServerState)
    (b : WebhookBody) (hd : ∀ k, o.deliver k = true) :
    (handlePost o s b).2.2 = 200 := by
  obtain ⟨obj, msg⟩ := b
  rcases obj with _ | _
  · rcases msg with _ | m <;> rfl
  · rcases msg with _ | m
    · rfl
    · rw [handlePost_eq o s ⟨true, some m⟩ m rfl rfl]
      by_cases hmem : m.id ∈ s.processed
      · rw [if_pos hmem]
      · rw [if_neg hmem]
        exact dispatch_status_ok o s.userState m hd

/-- C4 amended witness: with both adapters failing but delivery working,
a dispatch from an awaiting state still answers 200. -/
theorem status_200_when_delivery_ok_witness :
    (handlePost oracleErr sAwaitTopic bText).2.2 = 200 :=
  status_200_when_delivery_ok oracleErr sAwaitTopic bText (fun _ => rfl)

theorem StateInv_setUS (us : String → Option String) (p v : String)
    (h : StateInv us)
    (hv : v = "waiting_for_topic" ∨ v = "waiting_for_journal_title") :
    StateInv (setUS us p v) := by
  intro q w hq
  by_cases hqp : q = p
  · rw [setUS, if_pos hqp] at hq
    cases hq
    exact hv
  · rw [setUS, if_neg hqp] at hq
    exact h q w hq

theorem StateInv_delUS (us : String → Option String) (p : String)
    (h : StateInv us) : StateInv (delUS us p) := by
  intro q w hq
  by_cases hqp : q = p
  · rw [delUS, if_pos hqp] at hq
    exact absurd hq (by simp)
  · rw [delUS, if_neg hqp] at hq
    exact h q w hq

theorem buttonDispatch_inv (o : Oracles) (us : String → Option String)
    (m : Message) (bid : String) (h : StateInv us) :
    StateInv (buttonDispatch o us m bid).1 := by
  unfold buttonDispatch
  split_ifs
  · exact StateInv_setUS us m.sender _ h (Or.inl rfl)
  · exact StateInv_setUS us m.sender _ h (Or.inr rfl)
  · exact h

theorem topicDispatch_inv (o : Oracles) (us : String → Option String)
    (m : Message) (h : StateInv us) :
    StateInv (topicDispatch o us m).1 := by
  unfold topicDispatch
  rcases hgen : generateTitles o.gemini (m.text.getD "") with e | t <;>
      simp only [hgen] <;> split_ifs <;>
      first
        | exact StateInv_delUS us m.sender h
        | exact h

theorem journalDispatch_inv (o : Oracles) (us : String → Option String)
    (m : Message) (h : StateInv us) :
    StateInv (journalDispatch o us m).1 := by
  unfold journalDispatch
  rcases hs : searchJournals o.search (m.text.getD "") with e | js <;>
      simp only [hs] <;> split_ifs <;>
      first
        | exact StateInv_delUS us m.sender h
        | exact h

theorem dispatch_inv (o : Oracles) (us : String → Option String)
    (m : Message) (h : StateInv us) : StateInv (dispatch o us m).1 := by
  rcases hi : m.interactive with _ | bid
  · rw [dispatch_text o us m hi]
    split_ifs
    · exact topicDispatch_inv o us m h
    · exact journalDispatch_inv o us m h
    · unfold greetingDispatch
      split_ifs <;> exact h
    · exact h
  · rw [dispatch_button o us m bid hi]
    exact buttonDispatch_inv o us m bid h

/-- C9: the user-state map only ever holds the two values
`waiting_for_topic` and `waiting_for_journal_title` (`NoPending` is
represented by the absence of an entry): every dispatch sets one of
these two values or deletes the entry, so the property is preserved by
every handled webhook event. -/
theorem userState_two_values (o : Oracles) (s : ServerState)
    (b : WebhookBody) (h : StateInv s.userState) :
    StateInv (handlePost o s b).1.userState := by
  obtain ⟨obj, msg⟩ := b
  rcases obj with _ | _
  · rcases msg with _ | m <;> exact h
  · rcases msg with _ | m
    · exact h
    · rw [handlePost_eq o s ⟨true, some m⟩ m rfl rfl]
      by_cases hmem : m.id ∈ s.processed
      · rw [if_pos hmem]
        exact h
      · rw [if_neg hmem]
        exact dispatch_inv o s.userState m h

/-- C9 witness: the invariant holds on the empty map and after a
dispatch that sets a pending state. -/
theorem userState_two_values_witness :
    StateInv (handlePost oracleOk sEmpty bBtnTopics).1.userState :=
  userState_two_values oracleOk sEmpty bBtnTopics
    (fun _ v hp => Option.noConfusion hp)

/-- C7 counterexample: the claim says that when both parameters are
present but the token is wrong the endpoint responds 403; on the code,
a present-but-empty token fails the JS truthiness guard `if (mode &&
token)` and the handler sends no response at all. -/
theorem verification_empty_token_no_response :
    ("" = "secret" → False)
    ∧ handleGet "secret" (some "subscribe") (some "") (some "ch") = none :=
  ⟨by decide, by decide⟩

/-- C7 amended: `mode = subscribe` with a token matching a non-empty
secret answers the challenge with 200; both parameters present and
non-empty but wrong answer 403; a missing-or-empty parameter (in
particular both parameters missing) produces no response at all. -/
theorem webhook_verification (secret mv tv : String)
    (challenge : Option String) :
    (mv = "subscribe" → tv = secret → tv ≠ "" →
      handleGet secret (some mv) (some tv) challenge
        = some { status := 200, body := challenge })
    ∧ (mv ≠ "" → tv ≠ "" → ¬(mv = "subscribe" ∧ tv = secret) →
      handleGet secret (some mv) (some tv) challenge
        = some { status := 403, body := none })
    ∧ handleGet secret none none challenge = none
    ∧ handleGet secret (some mv) (some "") challenge = none
    ∧ handleGet secret none (some tv) challenge = none := by
  refine ⟨?_, ?_, rfl, ?_, rfl⟩
  · intro h1 h2 h3
    subst h1
    subst h2
    rw [handleGet, if_neg (by simp [h3]), if_pos ⟨rfl, rfl⟩]
  · intro h1 h2 h3
    rw [handleGet, if_neg (by simp [h1, h2]), if_neg h3]
  · rw [handleGet, if_pos (Or.inr rfl)]

/-- C7 amended witness: the three response shapes at concrete inputs. -/
theorem webhook_verification_witness :
    handleGet "sec" (some "subscribe") (some "sec") (some "ch")
      = some { status := 200, body := some "ch" }
    ∧ handleGet "sec" (some "subscribe") (some "bad") (some "ch")
      = some { status := 403, body := none }
    ∧ handleGet "sec" none none (some "ch") = none :=
  ⟨(webhook_verification "sec" "subscribe" "sec" (some "ch")).1
      rfl rfl (by decide),
   (webhook_verification "sec" "subscribe" "bad" (some "ch")).2.1
      (by decide) (by decide) (by decide),
   (webhook_verification "sec" "x" "y" (some "ch")).2.2.1⟩

end JournalApp
